import Mathlib

/-!
Shallow embedding of the pure core of the weather dashboard
(src/unnamed/part_000): place normalization and equality, the favorites
store, the hourly/daily series builders, the geocoding and
reverse-geocoding resolvers, and the forecast request parameters.

Modelling conventions:
* JS numbers are embedded as rationals (ℚ); timestamps already parsed by
  `new Date(s).getTime()` are embedded as integers (epoch milliseconds).
* Possibly-null / possibly-undefined values are `Option`s; the JS `||`
  on strings (empty string is falsy) is `jsOrStr` below; `??` is `Option.getD`.
* Fallible fetches return `Except String`; the network boundary is an
  explicit `FetchOutcome` argument (a transport error, or a status plus
  the parsed JSON body).
* Locale-dependent label formatting (`toLocaleTimeString`,
  `toLocaleDateString`) is presentation and is not embedded; the series
  points keep the raw fields the code copies out of the snapshot.
-/

/-- A normalized place record, as produced by `normalizePlace`,
`reverseGeocodeOSM`, the GPS fallback or the hardcoded default (part_000
lines 172-183, 218-226, 767-775, 804-812). Fields that the external APIs
may omit are `Option`s. -/
structure Place where
  id : String
  name : Option String
  admin1 : Option String
  country : Option String
  latitude : ℚ
  longitude : ℚ
  timezone : Option String
  deriving DecidableEq

/-- The value content of JS `x.toFixed(4)` as the source uses it (part_000
line 318): a sign (`"-"` is prepended exactly when the number is negative)
and the magnitude `⌊|x|·10⁴ + 1/2⌋` (ECMA-262 ToFixed rounds the magnitude
to the nearest multiple of 10⁻⁴, ties away from zero). Two `toFixed(4)`
strings are equal iff these components are equal: the decimal rendering of
the magnitude with four forced fraction digits is injective, and the key
separator `:` used at line 318 never occurs inside a rendered number, so
comparing the two component pairs is faithful to comparing the two key
strings. -/
structure Fixed4 where
  neg : Bool
  mag : ℤ
  deriving DecidableEq

/-- The components of `x.toFixed(4)` for a coordinate embedded as ℚ. -/
def toFixed4 (q : ℚ) : Fixed4 :=
  { neg := decide (q < 0), mag := ⌊|q| * 10000 + 1 / 2⌋ }

/-- Mathematical rounding of a coordinate at 4 decimal places (scaled by
10⁴, ties away from zero — the same tie rule ToFixed applies to the
magnitude, so any divergence from `toFixed4` is purely about the sign of
values that round to zero). This is the "round(x,4)" of the specification,
not a function of the source. -/
def round4 (q : ℚ) : ℤ :=
  if q < 0 then -⌊(-q) * 10000 + 1 / 2⌋ else ⌊q * 10000 + 1 / 2⌋

/-- Place equality by 4-decimal coordinate keys (part_000 lines 316-321):
null on either side gives `false`; otherwise the `toFixed(4)` keys of both
coordinates are compared. -/
def isSamePlace (a b : Option Place) : Bool :=
  match a, b with
  | some a, some b =>
      decide (toFixed4 a.latitude = toFixed4 b.latitude ∧
              toFixed4 a.longitude = toFixed4 b.longitude)
  | _, _ => false

theorem toFixed4_eq_iff (x y : ℚ) :
    toFixed4 x = toFixed4 y ↔ (round4 x = round4 y ∧ (x < 0 ↔ y < 0)) := by
  unfold toFixed4 round4
  rcases lt_or_le x 0 with hx | hx <;> rcases lt_or_le y 0 with hy | hy <;>
    simp [Fixed4.mk.injEq, abs_of_neg, abs_of_nonneg, hx, hy, hx.not_lt, hy.not_lt]

theorem toFixed4_natCast (n : ℕ) : toFixed4 (n : ℚ) = ⟨false, 10000 * n⟩ := by
  unfold toFixed4
  rw [abs_of_nonneg (by positivity)]
  refine congrArg₂ Fixed4.mk (by simp) ?_
  rw [Int.floor_eq_iff]
  push_cast
  constructor <;> linarith

theorem toFixed4_small_pos : toFixed4 (1 / 100000) = ⟨false, 0⟩ := by
  unfold toFixed4
  rw [abs_of_nonneg (by norm_num)]
  norm_num

theorem toFixed4_small_neg : toFixed4 (-1 / 100000) = ⟨true, 0⟩ := by
  unfold toFixed4
  rw [abs_of_nonpos (by norm_num)]
  norm_num

theorem toFixed4_zero : toFixed4 0 = ⟨false, 0⟩ := by
  unfold toFixed4
  rw [abs_zero]
  norm_num

/-- Claim C1 (counterexample): two places whose coordinates all round to
the same 4-decimal value (latitudes 0.00001 and -0.00001 both round to
0.0000) but which `isSamePlace` does not identify: `toFixed(4)` renders
the tiny negative latitude as "-0.0000", so the keys differ. -/
theorem isSamePlace_round4_cex :
    ¬ (isSamePlace
        (some { id := "A", name := some "A", admin1 := none, country := none,
                latitude := 1 / 100000, longitude := 0, timezone := none })
        (some { id := "B", name := some "B", admin1 := none, country := none,
                latitude := -1 / 100000, longitude := 0, timezone := none }) = true ↔
       (round4 (1 / 100000 : ℚ) = round4 (-1 / 100000 : ℚ) ∧
        round4 (0 : ℚ) = round4 (0 : ℚ))) := by
  have hsame : isSamePlace
      (some { id := "A", name := some "A", admin1 := none, country := none,
              latitude := 1 / 100000, longitude := 0, timezone := none })
      (some { id := "B", name := some "B", admin1 := none, country := none,
              latitude := -1 / 100000, longitude := 0, timezone := none }) = false := by
    simp only [isSamePlace, toFixed4_small_pos, toFixed4_small_neg, toFixed4_zero]
    decide
  have hpos : round4 (1 / 100000 : ℚ) = 0 := by
    unfold round4
    rw [if_neg (by norm_num)]
    norm_num
  have hneg : round4 (-1 / 100000 : ℚ) = 0 := by
    unfold round4
    rw [if_pos (by norm_num)]
    norm_num
  intro hiff
  have := hiff.mpr ⟨by rw [hpos, hneg], rfl⟩
  rw [hsame] at this
  exact Bool.false_ne_true this

/-- Claim C1 (amended): `isSamePlace` on two non-null places is true iff
the latitudes and the longitudes each round to the same 4-decimal value
AND the strict-negativity of corresponding coordinates agrees — the sign
condition only bites when a coordinate rounds to zero, where `toFixed(4)`
keeps the minus sign of a negative input. -/
theorem isSamePlace_iff_round4_and_sign (a b : Place) :
    isSamePlace (some a) (some b) = true ↔
      (round4 a.latitude = round4 b.latitude ∧
       round4 a.longitude = round4 b.longitude ∧
       ((a.latitude < 0) ↔ (b.latitude < 0)) ∧
       ((a.longitude < 0) ↔ (b.longitude < 0))) := by
  simp only [isSamePlace, decide_eq_true_eq, toFixed4_eq_iff]
  tauto

/-- Reflexivity of the rounded-coordinate equality on non-null places. -/
theorem isSamePlace_self (p : Place) : isSamePlace (some p) (some p) = true := by
  simp [isSamePlace]

/-- The favorites membership check (part_000 line 694):
`favorites.some((f) => isSamePlace(f, place))` with a possibly-null
current place. -/
def isFavorite (favorites : List Place) (place : Option Place) : Bool :=
  favorites.any fun f => isSamePlace (some f) place

/-- The active-chip test of the favorites strip (part_000 line 480):
`current && isSamePlace(current, p)`, coerced to a boolean. -/
def chipActive (current : Option Place) (p : Place) : Bool :=
  current.isSome && isSamePlace current (some p)

/-- The favorites toggle (part_000 lines 778-785): a null place is a
no-op; otherwise, if some stored entry equals the place by
`isSamePlace`, all equal entries are removed; otherwise the place is
prepended and the list truncated to its first 12 entries
(`[p, ...prev].slice(0, 12)`). -/
def toggleFavorite (p : Option Place) (prev : List Place) : List Place :=
  match p with
  | none => prev
  | some p =>
      if prev.any (fun f => isSamePlace (some f) (some p)) then
        prev.filter fun f => !isSamePlace (some f) (some p)
      else
        (p :: prev).take 12

/-- A sample place at integer coordinates, used for concrete instances. -/
def mkPlace (n : ℕ) : Place :=
  { id := "wx", name := none, admin1 := none, country := none,
    latitude := n, longitude := n, timezone := none }

theorem isSamePlace_mkPlace (m n : ℕ) :
    isSamePlace (some (mkPlace m)) (some (mkPlace n)) = decide (m = n) := by
  simp only [isSamePlace, mkPlace, toFixed4_natCast]
  rw [decide_eq_decide]
  simp only [Fixed4.mk.injEq, true_and]
  omega

/-- Claim C9: the null guard of `isSamePlace` makes every comparison with
a null argument false — including null against null — so with no current
place selected nothing is reported as a favorite and no favorite chip is
active. -/
theorem isSamePlace_null (a : Option Place) (favorites : List Place) (p : Place) :
    isSamePlace none a = false ∧ isSamePlace a none = false ∧
    isSamePlace none none = false ∧
    isFavorite favorites none = false ∧
    chipActive none p = false := by
  refine ⟨rfl, ?_, rfl, ?_, rfl⟩
  · cases a <;> rfl
  · simp [isFavorite, isSamePlace]

/-- Claim C2 (counterexample): toggling the same place twice does not
return the favorites list to its original contents and order — removal
strips the place from its old position and the second toggle re-prepends
it at the front: double-toggling place 1 on [place 2, place 1] yields
[place 1, place 2]. -/
theorem toggleFavorite_twice_cex :
    toggleFavorite (some (mkPlace 1))
        (toggleFavorite (some (mkPlace 1)) [mkPlace 2, mkPlace 1]) ≠
      [mkPlace 2, mkPlace 1] := by
  have h21 : isSamePlace (some (mkPlace 2)) (some (mkPlace 1)) = false := by
    rw [isSamePlace_mkPlace]; rfl
  have h11 : isSamePlace (some (mkPlace 1)) (some (mkPlace 1)) = true :=
    isSamePlace_self _
  have hne : mkPlace 1 ≠ mkPlace 2 := by
    intro h
    have := congrArg Place.latitude h
    norm_num [mkPlace] at this
  simp [toggleFavorite, h21, h11, hne]

/-- Claim C2 (amended): double-toggling a place is the identity when no
stored entry equals it and the list holds fewer than 12 entries.  (In
general it is not: an equal entry is removed from its position and
re-added at the front, and at 12 entries the first toggle evicts the
oldest entry, so order and contents are only restored in the fresh,
non-full case.) -/
theorem toggleFavorite_twice_of_fresh (p : Place) (L : List Place)
    (hfree : ∀ f ∈ L, isSamePlace (some f) (some p) = false)
    (hlen : L.length < 12) :
    toggleFavorite (some p) (toggleFavorite (some p) L) = L := by
  have hany : (L.any fun f => isSamePlace (some f) (some p)) = false := by
    rw [List.any_eq_false]
    intro f hf
    simp [hfree f hf]
  have h1 : toggleFavorite (some p) L = p :: L := by
    simp only [toggleFavorite, hany, Bool.false_eq_true, if_false]
    rw [List.take_of_length_le]
    simp only [List.length_cons]
    omega
  rw [h1]
  have h2 : ((p :: L).any fun f => isSamePlace (some f) (some p)) = true := by
    simp [isSamePlace_self p]
  simp only [toggleFavorite, h2, if_true]
  rw [List.filter_cons]
  simp only [isSamePlace_self p, Bool.not_true, Bool.false_eq_true, if_false]
  rw [List.filter_eq_self]
  intro f hf
  simp [hfree f hf]

/-- Closed instance of the amended C2 theorem at a concrete input. -/
theorem toggleFavorite_twice_witness :
    toggleFavorite (some (mkPlace 1)) (toggleFavorite (some (mkPlace 1)) []) = [] :=
  toggleFavorite_twice_of_fresh (mkPlace 1) [] (by simp) (by norm_num)

/-- Claim C5: toggling preserves the 12-entry bound, and prepending a
13th distinct place evicts the oldest (last) entry, keeping the place in
front of the surviving 11. -/
theorem toggleFavorite_bound (p : Place) (L : List Place) (h : L.length ≤ 12) :
    (toggleFavorite (some p) L).length ≤ 12 ∧
    (L.length = 12 → (∀ f ∈ L, isSamePlace (some f) (some p) = false) →
      toggleFavorite (some p) L = p :: L.dropLast) := by
  constructor
  · simp only [toggleFavorite]
    split
    · exact le_trans (List.length_filter_le _ _) h
    · simp
  · intro h12 hfree
    have hany : (L.any fun f => isSamePlace (some f) (some p)) = false := by
      rw [List.any_eq_false]
      intro f hf
      simp [hfree f hf]
    simp only [toggleFavorite, hany, Bool.false_eq_true, if_false]
    rw [List.dropLast_eq_take, h12]
    rfl

/-- The full favorites list used to exercise the eviction case. -/
def favTwelve : List Place := (List.range 12).map fun i => mkPlace (i + 1)

/-- Closed instance of the C5 theorem at a full 12-entry list. -/
theorem toggleFavorite_bound_witness :
    (toggleFavorite (some (mkPlace 13)) favTwelve).length ≤ 12 ∧
    (favTwelve.length = 12 →
      (∀ f ∈ favTwelve, isSamePlace (some f) (some (mkPlace 13)) = false) →
      toggleFavorite (some (mkPlace 13)) favTwelve = mkPlace 13 :: favTwelve.dropLast) :=
  toggleFavorite_bound (mkPlace 13) favTwelve (by simp [favTwelve])

/-- The `hourly` block of a raw forecast snapshot (parallel arrays keyed
by timestamp); every array may be missing. Timestamps are embedded as the
epoch-millisecond integers `new Date(s).getTime()` yields. -/
structure HourlyRaw where
  time : Option (List ℤ)
  temperature_2m : Option (List ℚ)
  apparent_temperature : Option (List ℚ)
  precipitation_probability : Option (List ℚ)

/-- The `daily` block of a raw forecast snapshot; every array may be
missing. Daily time entries are the raw date strings. -/
structure DailyRaw where
  time : Option (List String)
  temperature_2m_max : Option (List ℚ)
  temperature_2m_min : Option (List ℚ)
  weather_code : Option (List ℤ)
  sunrise : Option (List String)
  sunset : Option (List String)

/-- A raw forecast snapshot: both sub-objects may be missing, and the
snapshot itself may be null (the builders receive `data?.hourly?...`). -/
structure ForecastData where
  hourly : Option HourlyRaw
  daily : Option DailyRaw

/-- `data?.hourly?.time || []` (part_000 line 268). -/
def hourlyTimes (d : Option ForecastData) : List ℤ :=
  ((d.bind ForecastData.hourly).bind HourlyRaw.time).getD []

/-- `data?.hourly?.temperature_2m || []` (part_000 line 269). -/
def hourlyTemps (d : Option ForecastData) : List ℚ :=
  ((d.bind ForecastData.hourly).bind HourlyRaw.temperature_2m).getD []

/-- `data?.hourly?.apparent_temperature || []` (part_000 line 270). -/
def hourlyFeels (d : Option ForecastData) : List ℚ :=
  ((d.bind ForecastData.hourly).bind HourlyRaw.apparent_temperature).getD []

/-- `data?.hourly?.precipitation_probability || []` (part_000 line 271). -/
def hourlyPop (d : Option ForecastData) : List ℚ :=
  ((d.bind ForecastData.hourly).bind HourlyRaw.precipitation_probability).getD []

/-- `data?.daily?.time || []` (part_000 line 298). -/
def dailyTimes (d : Option ForecastData) : List String :=
  ((d.bind ForecastData.daily).bind DailyRaw.time).getD []

/-- `data?.daily?.temperature_2m_max || []` (part_000 line 299). -/
def dailyMax (d : Option ForecastData) : List ℚ :=
  ((d.bind ForecastData.daily).bind DailyRaw.temperature_2m_max).getD []

/-- `data?.daily?.temperature_2m_min || []` (part_000 line 300). -/
def dailyMin (d : Option ForecastData) : List ℚ :=
  ((d.bind ForecastData.daily).bind DailyRaw.temperature_2m_min).getD []

/-- `data?.daily?.weather_code || []` (part_000 line 301). -/
def dailyCode (d : Option ForecastData) : List ℤ :=
  ((d.bind ForecastData.daily).bind DailyRaw.weather_code).getD []

/-- `data?.daily?.sunrise || []` (part_000 line 302). -/
def dailySunrise (d : Option ForecastData) : List String :=
  ((d.bind ForecastData.daily).bind DailyRaw.sunrise).getD []

/-- `data?.daily?.sunset || []` (part_000 line 303). -/
def dailySunset (d : Option ForecastData) : List String :=
  ((d.bind ForecastData.daily).bind DailyRaw.sunset).getD []

/-- One emitted hourly point (part_000 lines 285-291): the raw fields the
loop body copies out of the parallel arrays; an index beyond an array's
length gives `none` (JS `undefined`). The locale label of line 286 is
presentation and not embedded; `iso` is the timestamp at the index. -/
structure HourlyPoint where
  temp : Option ℚ
  feels : Option ℚ
  pop : Option ℚ
  iso : Option ℤ
  deriving DecidableEq

/-- The hourly point the loop body of `buildHourlySeries` pushes for
index `i`. -/
def hourlyPointAt (d : Option ForecastData) (i : ℕ) : HourlyPoint :=
  { temp := (hourlyTemps d).get? i, feels := (hourlyFeels d).get? i,
    pop := (hourlyPop d).get? i, iso := (hourlyTimes d).get? i }

/-- The index of the first timestamp that is ≥ `now`, if any: the linear
scan with break of part_000 lines 275-281. -/
def findFirstGE : List ℤ → ℤ → Option ℕ
  | [], _ => none
  | t :: rest, now =>
      if now ≤ t then some 0 else (findFirstGE rest now).map (· + 1)

/-- The loop's resulting `startIdx`: it is initialized to 0 and left
there when no timestamp is ≥ `now` (part_000 line 274). -/
def startIdx (times : List ℤ) (now : ℤ) : ℕ :=
  (findFirstGE times now).getD 0

/-- The hourly series builder (part_000 lines 267-294): emits the points
at indices `startIdx, startIdx+1, ...` strictly below
`min(times.length, startIdx + hours)`. The reference instant `now` is the
already-parsed `new Date(nowISO).getTime()` (with the `Date.now()`
default resolved at the boundary). -/
def buildHourlySeries (d : Option ForecastData) (now : ℤ) (hours : ℕ) : List HourlyPoint :=
  (List.range (min (hourlyTimes d).length (startIdx (hourlyTimes d) now + hours) -
      startIdx (hourlyTimes d) now)).map
    fun k => hourlyPointAt d (startIdx (hourlyTimes d) now + k)

/-- One emitted daily point (part_000 lines 305-313): the raw date string
plus the parallel-array fields at its index; the locale weekday label of
line 307 is presentation and not embedded. -/
structure DailyPoint where
  day : String
  max : Option ℚ
  min : Option ℚ
  code : Option ℤ
  sunrise : Option String
  sunset : Option String
  deriving DecidableEq

/-- The daily series builder (part_000 lines 297-314): one point per
entry of the daily time array, `t.map((day, i) => ...)`. -/
def buildDailySeries (d : Option ForecastData) : List DailyPoint :=
  (dailyTimes d).enum.map fun x =>
    { day := x.2, max := (dailyMax d).get? x.1, min := (dailyMin d).get? x.1,
      code := (dailyCode d).get? x.1, sunrise := (dailySunrise d).get? x.1,
      sunset := (dailySunset d).get? x.1 }

theorem findFirstGE_none_iff (now : ℤ) (times : List ℤ) :
    findFirstGE times now = none ↔ ∀ t ∈ times, t < now := by
  induction times with
  | nil => simp [findFirstGE]
  | cons t rest ih =>
      by_cases h : now ≤ t
      · simp [findFirstGE, h, not_lt.mpr h]
      · simp [findFirstGE, h, ih, not_le.mp h]

theorem findFirstGE_some (now : ℤ) :
    ∀ (times : List ℤ) (i : ℕ), findFirstGE times now = some i →
      (∃ t, times.get? i = some t ∧ now ≤ t) ∧
        ∀ j, j < i → ∀ t, times.get? j = some t → t < now := by
  intro times
  induction times with
  | nil => intro i h; simp [findFirstGE] at h
  | cons t rest ih =>
      intro i h
      by_cases hc : now ≤ t
      · simp only [findFirstGE, if_pos hc, Option.some.injEq] at h
        subst h
        exact ⟨⟨t, rfl, hc⟩, fun j hj => absurd hj (Nat.not_lt_zero j)⟩
      · simp only [findFirstGE, if_neg hc, Option.map_eq_some'] at h
        obtain ⟨i', hi', rfl⟩ := h
        obtain ⟨⟨t', ht', hle⟩, hbefore⟩ := ih i' hi'
        refine ⟨⟨t', ht', hle⟩, ?_⟩
        intro j hj t0 hget
        cases j with
        | zero =>
            simp only [List.get?] at hget
            obtain rfl : t = t0 := by injection hget
            exact not_le.mp hc
        | succ j' =>
            exact hbefore j' (by omega) t0 hget

/-- Claim C3: when the hourly time array holds a timestamp ≥ the
reference instant, the series starts at the first index whose timestamp
is ≥ `now` (all earlier timestamps are < `now`), its length is
`min(windowSize, entries from that index to the end)`, and its k-th
element is the consecutive point at `startIdx + k`. -/
theorem buildHourlySeries_window (d : Option ForecastData) (now : ℤ) (hours : ℕ)
    (h : ∃ t ∈ hourlyTimes d, now ≤ t) :
    ((∃ t, (hourlyTimes d).get? (startIdx (hourlyTimes d) now) = some t ∧ now ≤ t) ∧
      ∀ j, j < startIdx (hourlyTimes d) now →
        ∀ t, (hourlyTimes d).get? j = some t → t < now) ∧
    (buildHourlySeries d now hours).length =
      min hours ((hourlyTimes d).length - startIdx (hourlyTimes d) now) ∧
    ∀ k, k < (buildHourlySeries d now hours).length →
      (buildHourlySeries d now hours).get? k =
        some (hourlyPointAt d (startIdx (hourlyTimes d) now + k)) := by
  obtain ⟨t0, ht0, hle⟩ := h
  have hne : findFirstGE (hourlyTimes d) now ≠ none := by
    rw [Ne, findFirstGE_none_iff]
    push_neg
    exact ⟨t0, ht0, hle⟩
  obtain ⟨s, hs⟩ := Option.ne_none_iff_exists'.mp hne
  have hstart : startIdx (hourlyTimes d) now = s := by simp [startIdx, hs]
  obtain ⟨⟨t1, ht1, hle1⟩, hbefore⟩ := findFirstGE_some now (hourlyTimes d) s hs
  have hslt : s < (hourlyTimes d).length := (List.get?_eq_some.mp ht1).1
  have hlen : (buildHourlySeries d now hours).length =
      min hours ((hourlyTimes d).length - startIdx (hourlyTimes d) now) := by
    simp only [buildHourlySeries, List.length_map, List.length_range, hstart]
    omega
  refine ⟨⟨⟨t1, by rw [hstart]; exact ht1, hle1⟩, ?_⟩, hlen, ?_⟩
  · intro j hj t ht
    exact hbefore j (by omega) t ht
  · intro k hk
    rw [hlen, hstart] at hk
    simp only [buildHourlySeries, hstart]
    rw [List.get?_map, List.get?_range (by omega)]
    rfl

/-- Concrete snapshot used to instantiate the series-builder theorems:
three hourly timestamps with partially missing parallel arrays. -/
def snapSample : Option ForecastData :=
  some { hourly := some { time := some [0, 10, 20], temperature_2m := some [1, 2, 3],
                          apparent_temperature := none,
                          precipitation_probability := some [5] },
         daily := none }

/-- Closed instance of the C3 theorem: reference instant 5 falls between
the first and second timestamps, so the window starts at index 1 and
holds min(2, 2) = 2 points. -/
theorem buildHourlySeries_window_witness :
    ((∃ t, (hourlyTimes snapSample).get? (startIdx (hourlyTimes snapSample) 5) = some t ∧
        (5 : ℤ) ≤ t) ∧
      ∀ j, j < startIdx (hourlyTimes snapSample) 5 →
        ∀ t, (hourlyTimes snapSample).get? j = some t → t < 5) ∧
    (buildHourlySeries snapSample 5 2).length =
      min 2 ((hourlyTimes snapSample).length - startIdx (hourlyTimes snapSample) 5) ∧
    ∀ k, k < (buildHourlySeries snapSample 5 2).length →
      (buildHourlySeries snapSample 5 2).get? k =
        some (hourlyPointAt snapSample (startIdx (hourlyTimes snapSample) 5 + k)) :=
  buildHourlySeries_window snapSample 5 2 (by decide)

/-- Claim C6: with a non-empty hourly time array whose timestamps are all
strictly before the reference instant, the window falls back to index 0:
the output is the first min(windowSize, length) points, and it is
non-empty whenever the window size is positive. -/
theorem buildHourlySeries_fallback (d : Option ForecastData) (now : ℤ) (hours : ℕ)
    (hne : hourlyTimes d ≠ []) (hall : ∀ t ∈ hourlyTimes d, t < now) :
    buildHourlySeries d now hours =
      (List.range (min hours (hourlyTimes d).length)).map (hourlyPointAt d) ∧
    (0 < hours → buildHourlySeries d now hours ≠ []) := by
  have hn : findFirstGE (hourlyTimes d) now = none := (findFirstGE_none_iff now _).mpr hall
  have hstart : startIdx (hourlyTimes d) now = 0 := by simp [startIdx, hn]
  have hmain : buildHourlySeries d now hours =
      (List.range (min hours (hourlyTimes d).length)).map (hourlyPointAt d) := by
    simp only [buildHourlySeries, hstart, Nat.zero_add, Nat.sub_zero]
    rw [Nat.min_comm]
  refine ⟨hmain, ?_⟩
  intro hpos
  have hlpos : 0 < (hourlyTimes d).length := List.length_pos.mpr hne
  apply List.ne_nil_of_length_pos
  rw [hmain]
  simp only [List.length_map, List.length_range]
  omega

/-- Closed instance of the C6 theorem: reference instant 100 is after
every timestamp of the sample snapshot, and the series still starts at
index 0 with min(24, 3) = 3 points. -/
theorem buildHourlySeries_fallback_witness :
    buildHourlySeries snapSample 100 24 =
      (List.range (min 24 (hourlyTimes snapSample).length)).map (hourlyPointAt snapSample) ∧
    (0 < 24 → buildHourlySeries snapSample 100 24 ≠ []) :=
  buildHourlySeries_fallback snapSample 100 24 (by decide) (by decide)

/-- Claim C10: the series builders are total on arbitrary snapshots: a
missing snapshot or missing sub-object degrades to an empty time array;
an empty (or missing) time array yields an empty series; the daily series
always has exactly one point per time entry, and the hourly series never
exceeds the window size, whatever parallel arrays are missing. -/
theorem buildSeries_total (d : Option ForecastData) (now : ℤ) (hours : ℕ) :
    (d.bind ForecastData.hourly = none → hourlyTimes d = []) ∧
    (d.bind ForecastData.daily = none → dailyTimes d = []) ∧
    (hourlyTimes d = [] → buildHourlySeries d now hours = []) ∧
    (dailyTimes d = [] → buildDailySeries d = []) ∧
    (buildDailySeries d).length = (dailyTimes d).length ∧
    (buildHourlySeries d now hours).length ≤ hours := by
  refine ⟨?_, ?_, ?_, ?_, ?_, ?_⟩
  · intro h; simp [hourlyTimes, h]
  · intro h; simp [dailyTimes, h]
  · intro h; simp [buildHourlySeries, h]
  · intro h; simp [buildDailySeries, h]
  · simp [buildDailySeries]
  · simp only [buildHourlySeries, List.length_map, List.length_range]
    omega

/-- The outcome of a `fetch(url)` at the network boundary: a transport
error, or an HTTP status together with the parsed JSON body. -/
inductive FetchOutcome (α : Type) where
  | netError : String → FetchOutcome α
  | response : ℕ → α → FetchOutcome α

/-- `fetchJson` (part_000 lines 191-195): a transport error propagates;
a response with `!res.ok` (status outside 200..299) raises
`HTTP <status>`; otherwise the parsed body is returned. -/
def fetchJson {α : Type} : FetchOutcome α → Except String α
  | FetchOutcome.netError msg => Except.error msg
  | FetchOutcome.response status body =>
      if 200 ≤ status ∧ status < 300 then Except.ok body
      else Except.error ("HTTP " ++ toString status)

/-- One raw geocoding result; every field the API may omit is an
`Option`. -/
structure GeoResult where
  id : Option String
  name : Option String
  admin1 : Option String
  country : Option String
  latitude : ℚ
  longitude : ℚ
  timezone : Option String

/-- The geocoding response body `{ results: [...] }`; the array may be
missing. -/
structure GeoBody where
  results : Option (List GeoResult)

/-- Geocoding-result normalization (part_000 lines 172-183) for a
non-null result object: a missing id is synthesized from the coordinates
(`p.id ?? "lat,lon"`, the numeric interpolation modelled by `toString`);
the remaining fields are copied through. The null-input guard of line
173 concerns callers passing null; the mapped use at line 202 only ever
passes array elements. -/
def normalizePlace (p : GeoResult) : Place :=
  { id := p.id.getD (toString p.latitude ++ "," ++ toString p.longitude),
    name := p.name, admin1 := p.admin1, country := p.country,
    latitude := p.latitude, longitude := p.longitude, timezone := p.timezone }

/-- The search-by-name resolver `geocode` (part_000 lines 198-203): it
awaits `fetchJson` WITHOUT catching — a failure propagates to the caller
— and on success maps `data?.results || []` through `normalizePlace`.
The query/count/language URL construction is at the boundary; the
argument is the boundary's outcome for that request. -/
def geocode (resp : FetchOutcome (Option GeoBody)) : Except String (List Place) :=
  match fetchJson resp with
  | Except.error e => Except.error e
  | Except.ok data => Except.ok (((data.bind GeoBody.results).getD []).map normalizePlace)

/-- What the debounced-search effect stores into the suggestions state
(part_000 lines 718-729): the geocode results on success, the empty list
when the awaited `geocode` call throws (the `catch` branch). -/
def searchSuggestions (resp : FetchOutcome (Option GeoBody)) : List Place :=
  match geocode resp with
  | Except.ok r => r
  | Except.error _ => []

/-- Claim C4 (counterexample): on an HTTP 500 from the geocoding
boundary, `geocode` does not return an empty sequence — it raises the
`HTTP 500` error to its caller. -/
theorem geocode_http500_cex :
    geocode (FetchOutcome.response 500 none) = Except.error ("HTTP " ++ toString 500) ∧
    geocode (FetchOutcome.response 500 none) ≠ Except.ok [] := by
  have h : geocode (FetchOutcome.response 500 none) =
      Except.error ("HTTP " ++ toString 500) := by
    simp [geocode, fetchJson]
  refine ⟨h, ?_⟩
  rw [h]
  intro hh
  exact Except.noConfusion hh

/-- Claim C4 (amended): `geocode` itself never swallows a failure: a
transport error or non-2xx status propagates as an exception to its
caller. It is the debounced-search caller that catches the exception and
clears the suggestions to the empty list, so the search flow — not the
resolver — degrades to an empty sequence; on a 2xx response `geocode`
returns the normalized results. -/
theorem geocode_outcomes (status : ℕ) (body : Option GeoBody) (msg : String) :
    (geocode (FetchOutcome.netError msg) = Except.error msg ∧
      searchSuggestions (FetchOutcome.netError msg) = []) ∧
    (¬ (200 ≤ status ∧ status < 300) →
      geocode (FetchOutcome.response status body) =
          Except.error ("HTTP " ++ toString status) ∧
        searchSuggestions (FetchOutcome.response status body) = []) ∧
    (200 ≤ status ∧ status < 300 →
      geocode (FetchOutcome.response status body) =
          Except.ok (((body.bind GeoBody.results).getD []).map normalizePlace) ∧
        searchSuggestions (FetchOutcome.response status body) =
          ((body.bind GeoBody.results).getD []).map normalizePlace) := by
  refine ⟨⟨rfl, rfl⟩, ?_, ?_⟩
  · intro h
    have hg : geocode (FetchOutcome.response status body) =
        Except.error ("HTTP " ++ toString status) := by
      simp [geocode, fetchJson, h]
    exact ⟨hg, by simp [searchSuggestions, hg]⟩
  · intro h
    have hg : geocode (FetchOutcome.response status body) =
        Except.ok (((body.bind GeoBody.results).getD []).map normalizePlace) := by
      simp [geocode, fetchJson, h]
    exact ⟨hg, by simp [searchSuggestions, hg]⟩

/-- The `address` sub-object of a Nominatim reverse-geocoding response;
every field may be missing. -/
structure NomAddress where
  city : Option String
  town : Option String
  village : Option String
  county : Option String
  state : Option String
  country : Option String

/-- A Nominatim reverse-geocoding response body. -/
structure NomBody where
  address : Option NomAddress

/-- The empty object `{}` that `data?.address || {}` falls back to. -/
def emptyAddress : NomAddress := ⟨none, none, none, none, none, none⟩

/-- JS `x || d` for a possibly-missing string: the empty string is falsy
and also falls through to the default. -/
def jsOrStr (x : Option String) (d : String) : String :=
  match x with
  | some s => if s = "" then d else s
  | none => d

/-- Reverse geocoding via Nominatim (part_000 lines 207-227): on a
successful response it builds the place name from the first of
city/town/village/county that is present (default "Minha localização"),
admin1/country defaulting to the empty string, and returns a singleton
list with a coordinate-derived id and timezone "auto". A fetch failure
propagates (the caller falls back to a synthesized GPS place). -/
def reverseGeocodeOSM (lat lon : ℚ) (resp : FetchOutcome (Option NomBody)) :
    Except String (List Place) :=
  match fetchJson resp with
  | Except.error e => Except.error e
  | Except.ok data =>
    let a := (data.bind NomBody.address).getD emptyAddress
    Except.ok
    [{ id := "osm:" ++ toString lat ++ "," ++ toString lon,
       name := some (jsOrStr a.city (jsOrStr a.town (jsOrStr a.village
         (jsOrStr a.county "Minha localização")))),
       admin1 := some (jsOrStr a.state ""),
       country := some (jsOrStr a.country ""),
       latitude := lat, longitude := lon, timezone := some "auto" }]

/-- Claim C7: for a parsed reverse-geocoding response, missing
city/town/village/county yields the default name "Minha localização",
missing state/country yield empty strings, and for every body the result
is a singleton place carrying the input coordinates, the
coordinate-derived id and timezone "auto". -/
theorem reverseGeocodeOSM_defaults (lat lon : ℚ) (a : NomAddress) :
    (∃ p : Place,
      reverseGeocodeOSM lat lon (FetchOutcome.response 200 (some { address := some a })) =
          Except.ok [p] ∧
        p.latitude = lat ∧ p.longitude = lon ∧
        p.id = "osm:" ++ toString lat ++ "," ++ toString lon ∧
        p.timezone = some "auto" ∧
        (a.city = none → a.town = none → a.village = none → a.county = none →
          p.name = some "Minha localização") ∧
        (a.state = none → p.admin1 = some "") ∧
        (a.country = none → p.country = some "")) ∧
    ∀ body : Option NomBody, ∃ q : Place,
      reverseGeocodeOSM lat lon (FetchOutcome.response 200 body) = Except.ok [q] ∧
        q.latitude = lat ∧ q.longitude = lon ∧
        q.id = "osm:" ++ toString lat ++ "," ++ toString lon ∧
        q.timezone = some "auto" := by
  constructor
  · refine ⟨_, rfl, rfl, rfl, rfl, rfl, ?_, ?_, ?_⟩
    · intro h1 h2 h3 h4
      simp [jsOrStr, h1, h2, h3, h4]
    · intro h
      simp [jsOrStr, h]
    · intro h
      simp [jsOrStr, h]
  · intro body
    exact ⟨_, rfl, rfl, rfl, rfl, rfl⟩

/-- The query parameters of the forecast request (part_000 lines
230-260), one field per `URLSearchParams` entry, the CSV field lists
joined as the source joins them. -/
structure ForecastParams where
  latitude : String
  longitude : String
  timezone : String
  temperature_unit : String
  wind_speed_unit : String
  current : String
  hourly : String
  daily : String
  forecast_days : String

/-- The parameter construction of `fetchForecast` (part_000 lines
230-260): unit-dependent temperature/wind units, the place's
coordinates (numeric interpolation modelled by `toString`), the
timezone with the `place.timezone || "auto"` fallback, the fixed field
lists and `forecast_days: "7"`. The issuing of the HTTP request itself
is the `fetchJson` boundary. -/
def fetchForecastParams (place : Place) (unit : String) : ForecastParams :=
  { latitude := toString place.latitude,
    longitude := toString place.longitude,
    timezone := jsOrStr place.timezone "auto",
    temperature_unit := if unit = "imperial" then "fahrenheit" else "celsius",
    wind_speed_unit := if unit = "imperial" then "mph" else "kmh",
    current := "temperature_2m,relative_humidity_2m,apparent_temperature,weather_code,wind_speed_10m,visibility,is_day",
    hourly := "temperature_2m,apparent_temperature,relative_humidity_2m,weather_code,wind_speed_10m,visibility,precipitation_probability",
    daily := "weather_code,temperature_2m_max,temperature_2m_min,sunrise,sunset",
    forecast_days := "7" }

/-- Claim C8: the forecast request carries fahrenheit/mph exactly when
the unit system is imperial and celsius/kmh otherwise, always requests
forecast_days=7, uses the place's coordinates, and falls back to
timezone "auto" when the place has none. -/
theorem fetchForecastParams_spec (place : Place) (unit : String) :
    (unit = "imperial" →
      (fetchForecastParams place unit).temperature_unit = "fahrenheit" ∧
      (fetchForecastParams place unit).wind_speed_unit = "mph") ∧
    (unit ≠ "imperial" →
      (fetchForecastParams place unit).temperature_unit = "celsius" ∧
      (fetchForecastParams place unit).wind_speed_unit = "kmh") ∧
    (fetchForecastParams place unit).forecast_days = "7" ∧
    (fetchForecastParams place unit).latitude = toString place.latitude ∧
    (fetchForecastParams place unit).longitude = toString place.longitude ∧
    (place.timezone = none → (fetchForecastParams place unit).timezone = "auto") ∧
    (∀ tz, place.timezone = some tz → tz ≠ "" →
      (fetchForecastParams place unit).timezone = tz) := by
  refine ⟨?_, ?_, rfl, rfl, rfl, ?_, ?_⟩
  · intro h
    simp [fetchForecastParams, h]
  · intro h
    simp [fetchForecastParams, h]
  · intro h
    simp [fetchForecastParams, jsOrStr, h]
  · intro tz h htz
    simp [fetchForecastParams, jsOrStr, h, htz]
